import Mathlib

/-!
Shallow embedding of the SSE event-relay core of the daytona-mcp-server
repository (the GET route of the SSE endpoint, its three subscription
drivers, the client-disconnect teardown path, and the getSSEConnectionUrl
tool of src/app/[transport]/route.ts).

Conventions used throughout:
- query-string values are `Option String` (absent = none); JavaScript
  truthiness of such a value (null and the empty string are falsy) is the
  `truthy` predicate;
- upstream HTTP calls are oracles passed in as data: a poll fetch is an
  `Except String String` (payload or failure message), the chunked log
  call is a `LogUpstream` value;
- the outbound channel is the `Controller` state of the ReadableStream;
  per the WHATWG Streams specification, `enqueue` and `close` on a
  controller whose stream is closed (or close-requested) throw a
  TypeError, which we model with `Except JsError`;
- wall-clock timestamps taken by the drivers (`new Date().toISOString()`)
  are natural numbers supplied by a `clock` oracle.
-/

namespace DaytonaSSE

/-- Truthiness of a nullable string, as JavaScript coerces it in
conditions such as `if (!sandboxId)` and `if (sessionId && commandId)`:
null/absent and the empty string are falsy. -/
def truthy : Option String → Bool
  | none => false
  | some s => !(s == "")

/-- JavaScript `a || d` on a nullable string, as used at
`searchParams.get('eventType') || 'sandbox-status'`. -/
def orDefault (o : Option String) (d : String) : String :=
  match o with
  | none => d
  | some s => if s == "" then d else s

/-- Outbound SSE events of the route, one constructor per event name,
carrying the payload fields the source serializes for that event. -/
inductive Ev where
  | connected (message sandboxId : String) (sessionId commandId : Option String)
      (eventType : String)
  | disconnected (message : String)
  | sandboxStatus (sandboxId status : String) (timestamp : Nat)
  | sessionsUpdate (sandboxId sessions : String) (timestamp : Nat)
  | log (sandboxId sessionId commandId data : String) (timestamp : Nat)
  | logComplete (sandboxId sessionId commandId message : String)
  | logError (sandboxId sessionId commandId errMessage : String)
  | errorEv (message : String) (errDetail : Option String)
deriving Repr, DecidableEq

/-- Recognizer for the connected event. -/
def isConnectedEv : Ev → Bool
  | .connected .. => true
  | _ => false

/-- Recognizer for the disconnected event. -/
def isDisconnectedEv : Ev → Bool
  | .disconnected .. => true
  | _ => false

/-- Recognizer for the log event. -/
def isLogEv : Ev → Bool
  | .log .. => true
  | _ => false

/-- Recognizer for the log-complete event. -/
def isLogCompleteEv : Ev → Bool
  | .logComplete .. => true
  | _ => false

/-- Recognizer for the log-error event. -/
def isLogErrorEv : Ev → Bool
  | .logError .. => true
  | _ => false

/-- Recognizer for the error event. -/
def isErrorEv : Ev → Bool
  | .errorEv .. => true
  | _ => false

/-- JavaScript exceptions that the channel operations can throw. -/
inductive JsError where
  | typeError (message : String)
deriving Repr, DecidableEq

/-- State of the ReadableStream default controller backing one SSE
channel: the ordered queue of events enqueued so far, and whether the
stream has been closed. -/
structure Controller where
  queue : List Ev
  closed : Bool
deriving Repr, DecidableEq

/-- Models `controller.enqueue(...)`: appends to the queue while the
stream is open; per the WHATWG Streams specification it throws a
TypeError once the stream is closed. -/
def Controller.enqueue (c : Controller) (e : Ev) : Except JsError Controller :=
  if c.closed then Except.error (JsError.typeError "Controller is already closed")
  else Except.ok { c with queue := c.queue ++ [e] }

/-- Models `controller.close()`: marks the stream closed; closing an
already-closed stream throws a TypeError. -/
def Controller.close (c : Controller) : Except JsError Controller :=
  if c.closed then Except.error (JsError.typeError "Controller is already closed")
  else Except.ok { c with closed := true }

/-- Models the route's `sendEvent` helper (lines 39-42 of the SSE route):
serialize the named event with its payload and enqueue it on the
controller.  The source calls `controller.enqueue` unconditionally, so a
send on a closed channel throws exactly when `enqueue` does. -/
def sendEvent (c : Controller) (e : Ev) : Except JsError Controller :=
  c.enqueue e

/-- Message text of a JavaScript error value (`error.message`). -/
def errText : JsError → String
  | .typeError m => m

/-- Models one execution of `pollStatus` inside `streamSandboxStatus`:
fetch the sandbox, emit a sandbox-status event on success; on any
exception in the try block (fetch failure, or the status emit throwing)
the catch block emits an error event carrying the failure message. -/
def pollStatusOnce (sandboxId : String) (fetch : Except String String) (ts : Nat)
    (c : Controller) : Except JsError Controller :=
  match fetch with
  | .ok status =>
      match sendEvent c (.sandboxStatus sandboxId status ts) with
      | .ok c1 => Except.ok c1
      | .error e => sendEvent c (.errorEv "Failed to get sandbox status" (some (errText e)))
  | .error msg => sendEvent c (.errorEv "Failed to get sandbox status" (some msg))

/-- Models one execution of `pollSessions` inside `streamSessions`,
structured exactly as `pollStatusOnce` with the sessions endpoint and
messages. -/
def pollSessionsOnce (sandboxId : String) (fetch : Except String String) (ts : Nat)
    (c : Controller) : Except JsError Controller :=
  match fetch with
  | .ok sessions =>
      match sendEvent c (.sessionsUpdate sandboxId sessions ts) with
      | .ok c1 => Except.ok c1
      | .error e => sendEvent c (.errorEv "Failed to get sessions" (some (errText e)))
  | .error msg => sendEvent c (.errorEv "Failed to get sessions" (some msg))

/-- Event produced by one status tick on an open channel, as a pure
value: the sandbox-status event on fetch success, the error event on
fetch failure. -/
def statusTickEv (sandboxId : String) (fetch : Except String String) (ts : Nat) : Ev :=
  match fetch with
  | .ok status => .sandboxStatus sandboxId status ts
  | .error msg => .errorEv "Failed to get sandbox status" (some msg)

/-- Event produced by one sessions tick on an open channel. -/
def sessionsTickEv (sandboxId : String) (fetch : Except String String) (ts : Nat) : Ev :=
  match fetch with
  | .ok sessions => .sessionsUpdate sandboxId sessions ts
  | .error msg => .errorEv "Failed to get sessions" (some msg)

/-- Serialized emissions of the status-poll driver over a list of
observed ticks (the awaited initial fetch plus the interval ticks,
in the order the single-threaded event loop runs them).  Tick `k` uses
the fetch oracle at `k` and the clock at `k`. -/
def runStatusTicks (sandboxId : String) (fetches : Nat → Except String String)
    (clock : Nat → Nat) : List Nat → Controller → Except JsError Controller
  | [], c => Except.ok c
  | k :: ks, c =>
      match pollStatusOnce sandboxId (fetches k) (clock k) c with
      | .error e => Except.error e
      | .ok c1 => runStatusTicks sandboxId fetches clock ks c1

/-- Serialized emissions of the sessions-poll driver over a list of
observed ticks. -/
def runSessionsTicks (sandboxId : String) (fetches : Nat → Except String String)
    (clock : Nat → Nat) : List Nat → Controller → Except JsError Controller
  | [], c => Except.ok c
  | k :: ks, c =>
      match pollSessionsOnce sandboxId (fetches k) (clock k) c with
      | .error e => Except.error e
      | .ok c1 => runSessionsTicks sandboxId fetches clock ks c1

/-- Outcome of the chunked upstream log call opened by
`streamCommandLogs`: the initial request itself may fail (its catch
block), or it yields a stream of data chunks followed by how the stream
settled (end event, error event, or still open). -/
inductive StreamEnding where
  | ended
  | failed (message : String)
  | stillOpen
deriving Repr, DecidableEq

/-- Upstream behaviour oracle for the log-stream driver. -/
inductive LogUpstream where
  | establishFail (message : String)
  | stream (chunks : List String) (ending : StreamEnding)
deriving Repr, DecidableEq

/-- Emissions of the data-chunk handler of `streamCommandLogs`: one log
event per received chunk, in arrival order, carrying the decoded chunk
text, the identifiers and a timestamp. -/
def emitLogChunks (sandboxId sessionId commandId : String) (clock : Nat → Nat) :
    List (Nat × String) → Controller → Except JsError Controller
  | [], c => Except.ok c
  | p :: ps, c =>
      match sendEvent c (.log sandboxId sessionId commandId p.2 (clock p.1)) with
      | .error e => Except.error e
      | .ok c1 => emitLogChunks sandboxId sessionId commandId clock ps c1

/-- Models `streamCommandLogs` (lines 112-157 of the SSE route): on a
failed initial call, the catch block emits a generic error event; on an
established stream, the data handler emits one log event per chunk, the
end handler emits one log-complete event, the error handler emits one
log-error event. -/
def streamCommandLogs (sandboxId sessionId commandId : String)
    (upstream : LogUpstream) (clock : Nat → Nat) (c : Controller) :
    Except JsError Controller :=
  match upstream with
  | .establishFail msg =>
      sendEvent c (.errorEv "Failed to stream command logs" (some msg))
  | .stream chunks ending =>
      match emitLogChunks sandboxId sessionId commandId clock chunks.enum c with
      | .error e => Except.error e
      | .ok c1 =>
          match ending with
          | .ended => sendEvent c1 (.logComplete sandboxId sessionId commandId "Log stream ended")
          | .failed msg => sendEvent c1 (.logError sandboxId sessionId commandId msg)
          | .stillOpen => Except.ok c1

/-- Upstream oracles for one subscription: the per-tick poll fetch
results, the log-stream behaviour, and the wall clock. -/
structure Upstream where
  statusFetches : Nat → Except String String
  sessionsFetches : Nat → Except String String
  logs : LogUpstream
  clock : Nat → Nat

/-- Models the `handleEventStream` switch (lines 55-81 of the SSE
route): dispatch on the eventType string, in source order; `logs`
requires both sessionId and commandId to be truthy, otherwise one error
event; unknown kinds emit one error event naming the kind.  `ticks` is
the number of poll ticks observed before the scenario ends. -/
def handleEventStream (sandboxId : String) (sessionId commandId : Option String)
    (eventType : String) (env : Upstream) (ticks : Nat) (c : Controller) :
    Except JsError Controller :=
  if eventType == "logs" then
    if truthy sessionId && truthy commandId then
      streamCommandLogs sandboxId (sessionId.getD "") (commandId.getD "")
        env.logs env.clock c
    else
      sendEvent c (.errorEv "sessionId and commandId required for logs streaming" none)
  else if eventType == "sandbox-status" then
    runStatusTicks sandboxId env.statusFetches env.clock (List.range ticks) c
  else if eventType == "sessions" then
    runSessionsTicks sandboxId env.sessionsFetches env.clock (List.range ticks) c
  else
    sendEvent c (.errorEv ("Unknown event type: " ++ eventType) none)

/-- Full channel run of one accepted subscription (the `start` callback
of the ReadableStream): emit the connected handshake, run the selected
driver's emissions, and, when the client disconnect signal fires at the
end of the scenario, emit disconnected and close the channel (the abort
listener, lines 87-93). -/
def connectionRun (sandboxId : String) (sessionId commandId : Option String)
    (eventType : String) (env : Upstream) (ticks : Nat) (disconnect : Bool) :
    Except JsError Controller :=
  match sendEvent { queue := [], closed := false }
      (.connected "SSE connection established" sandboxId sessionId commandId eventType) with
  | .error e => Except.error e
  | .ok c1 =>
      match handleEventStream sandboxId sessionId commandId eventType env ticks c1 with
      | .error e => Except.error e
      | .ok c2 =>
          if disconnect then
            match sendEvent c2 (.disconnected "Client disconnected") with
            | .error e => Except.error e
            | .ok c3 => c3.close
          else
            Except.ok c2

/-- Inbound subscription request: the four query-string parameters of
the SSE route. -/
structure Request where
  sandboxId : Option String
  sessionId : Option String
  commandId : Option String
  eventTypeParam : Option String

/-- Result of the GET handler: either the early 400 rejection, or the
SSE response whose body is the channel run. -/
inductive GETResult where
  | badRequest (status : Nat) (body : String)
  | sse (run : Except JsError Controller)

/-- Models the GET handler of the SSE route (lines 13-98): read the four
query parameters, apply the eventType default, reject with HTTP 400 when
sandboxId is falsy (absent or empty) before any stream is constructed,
and otherwise answer with the streamed channel run. -/
def GET (r : Request) (env : Upstream) (ticks : Nat) (disconnect : Bool) : GETResult :=
  if !(truthy r.sandboxId) then
    GETResult.badRequest 400 "Missing sandboxId parameter"
  else
    GETResult.sse (connectionRun (r.sandboxId.getD "") r.sessionId r.commandId
      (orDefault r.eventTypeParam "sandbox-status") env ticks disconnect)

/-- Active repeating timers of the process (the interval handles created
by `setInterval`), identified by numeric ids. -/
structure Timers where
  active : List Nat
deriving Repr, DecidableEq

/-- Models `clearInterval(id)`: deactivates the interval; clearing an
interval that is not active is a no-op. -/
def clearInterval (t : Timers) (id : Nat) : Timers :=
  { active := t.active.filter (fun j => !(j == id)) }

/-- Models `setInterval` registering a new repeating timer. -/
def setIntervalTimer (t : Timers) (id : Nat) : Timers :=
  { active := id :: t.active }

/-- Process-local state of one open subscription: its timers and the
channel controller. -/
structure ConnState where
  timers : Timers
  ctrl : Controller
deriving Repr, DecidableEq

/-- Steps of the abort-listener body (lines 87-93 of the SSE route), in
source order: invoke the recorded cleanup function if any, emit the
disconnected event, close the controller. -/
inductive TDStep where
  | cancelDriver (id : Nat)
  | emitDisconnected
  | closeChannel
deriving Repr, DecidableEq

/-- Step sequence of the abort listener for a subscription whose
recorded cleanup callback is `cleanup` (none while the driver has not
finished starting): the nullable callback is checked before use, then
disconnected is emitted, then the channel is closed. -/
def teardownSteps (cleanup : Option Nat) : List TDStep :=
  (match cleanup with
   | some id => [TDStep.cancelDriver id]
   | none => []) ++ [TDStep.emitDisconnected, TDStep.closeChannel]

/-- Semantics of one teardown step on the subscription state. -/
def runTDStep (s : ConnState) : TDStep → Except JsError ConnState
  | .cancelDriver id => Except.ok { s with timers := clearInterval s.timers id }
  | .emitDisconnected =>
      (sendEvent s.ctrl (.disconnected "Client disconnected")).map
        (fun c => { s with ctrl := c })
  | .closeChannel => (s.ctrl.close).map (fun c => { s with ctrl := c })

/-- Runs a list of teardown steps in order; a thrown TypeError aborts
the listener body at that point. -/
def runTDSteps : List TDStep → ConnState → Except JsError ConnState
  | [], s => Except.ok s
  | st :: sts, s =>
      match runTDStep s st with
      | .error e => Except.error e
      | .ok s1 => runTDSteps sts s1

/-- Full abort-listener body for a subscription with recorded cleanup
callback `cleanup`. -/
def teardown (cleanup : Option Nat) (s : ConnState) : Except JsError ConnState :=
  runTDSteps (teardownSteps cleanup) s

/-- Models the completion of `streamSandboxStatus` when its awaited
initial fetch resumes (lines 179-186): run the initial poll, and only if
that did not throw, register the repeating interval and return its
handle as the cleanup value.  When the channel was already torn down,
the initial poll's emission throws, so no interval is ever installed. -/
def streamSandboxStatusStart (sandboxId : String) (fetch0 : Except String String)
    (ts0 : Nat) (freshId : Nat) (s : ConnState) : Except JsError (ConnState × Nat) :=
  match pollStatusOnce sandboxId fetch0 ts0 s.ctrl with
  | .error e => Except.error e
  | .ok c =>
      Except.ok ({ timers := setIntervalTimer s.timers freshId, ctrl := c }, freshId)

/-- Models one firing of the repeating timer installed by
`streamSandboxStatus`: the interval callback runs only while its handle
is still active; after `clearInterval` the tick does nothing. -/
def intervalTick (sandboxId : String) (fetch : Except String String) (ts : Nat)
    (id : Nat) (s : ConnState) : Except JsError ConnState :=
  if id ∈ s.timers.active then
    (pollStatusOnce sandboxId fetch ts s.ctrl).map (fun c => { s with ctrl := c })
  else
    Except.ok s

/-!
Timing model of the poll drivers under the JavaScript event loop.
`streamSandboxStatus` awaits its initial fetch (settling after
`delay 0`) and only then calls `setInterval(pollStatus, period)`, so
tick `k ≥ 1` fires at `delay 0 + period * k` regardless of whether the
fetch started by an earlier tick has settled; the fetch started at tick
`k` settles `delay k` later, and its event is emitted at that settle
time with the timestamp taken at emission. -/

/-- Start time of the fetch of tick `k` (tick 0 is the awaited initial
fetch, started immediately; the interval is registered when it
settles). -/
def fetchStart (delay : Nat → Nat) (period : Nat) : Nat → Nat
  | 0 => 0
  | k + 1 => delay 0 + period * (k + 1)

/-- Settle time of the fetch of tick `k`, which is also the emission
time and the emitted timestamp of that tick's event. -/
def fetchEnd (delay : Nat → Nat) (period : Nat) (k : Nat) : Nat :=
  fetchStart delay period k + delay k

/-- Statement that every periodic tick fires only after the previous
tick's fetch has settled (no two fetches concurrently in flight). -/
def ticksWaitForPrevious (delay : Nat → Nat) (period : Nat) : Prop :=
  ∀ k, fetchEnd delay period k ≤ fetchStart delay period (k + 1)

/-- Concrete fetch-duration oracle: the fetch started at tick 1 hangs
for 12 seconds, every other fetch takes 1 second. -/
def slowDelay : Nat → Nat := fun k => if k == 1 then 12000 else 1000

/-- Ticks (among the first `n`) whose fetch settles exactly at time `t`:
their events are the ones the event loop emits at `t`. -/
def completionsAt (delay : Nat → Nat) (period : Nat) (n t : Nat) : List Nat :=
  (List.range n).filter (fun k => fetchEnd delay period k == t)

/-- Timestamps carried by the events of the first `n` ticks, listed in
the order the event loop emits them (completion order), over the time
horizon `[0, horizon)`. -/
def emissionTimestamps (delay : Nat → Nat) (period : Nat) (n horizon : Nat) : List Nat :=
  (List.range horizon).flatMap
    (fun t => (completionsAt delay period n t).map (fun _ => t))

/-!
Model of the getSSEConnectionUrl tool of src/app/[transport]/route.ts
(lines 1336-1388).  URLSearchParams percent-encoding is abstracted to
the identity; the claims concern which query parameters appear, not
byte-level escaping. -/

/-- Query parameters assembled by the tool, in the property order of the
object literal passed to URLSearchParams: sandboxId always, sessionId
and commandId only when truthy (the conditional object spreads), and
eventType always. -/
def sseQueryParams (sandboxId : String) (sessionId commandId : Option String)
    (eventType : String) : List (String × String) :=
  [("sandboxId", sandboxId)]
    ++ (match sessionId with
        | some s => if s == "" then [] else [("sessionId", s)]
        | none => [])
    ++ (match commandId with
        | some s => if s == "" then [] else [("commandId", s)]
        | none => [])
    ++ [("eventType", eventType)]

/-- Rendering of the query parameters into the query string. -/
def renderQuery (ps : List (String × String)) : String :=
  String.intercalate "&" (ps.map (fun p => p.1 ++ "=" ++ p.2))

/-- Successful response payload of the getSSEConnectionUrl tool: the
assembled parameters, the URL, and the echoed eventType. -/
structure SSEUrlResult where
  params : List (String × String)
  url : String
  echoedEventType : String
deriving Repr, DecidableEq

/-- Models the getSSEConnectionUrl tool handler: apply the
'sandbox-status' default for an absent eventType, assemble the query
parameters and the URL.  The body performs no validation of the logs
precondition and none of its operations can throw, so every call
succeeds with this result. -/
def getSSEConnectionUrl (baseUrl sandboxId : String)
    (sessionId commandId : Option String) (eventType : Option String) : SSEUrlResult :=
  let et := eventType.getD "sandbox-status"
  let ps := sseQueryParams sandboxId sessionId commandId et
  { params := ps, url := baseUrl ++ "/sse?" ++ renderQuery ps, echoedEventType := et }

/-!
Derived pure views of the driver emissions, and the algebra relating the
stateful channel runs to them on an open channel. -/

/-- Events appended by the log-stream driver on an open channel, as a
pure list. -/
def logDriverEvs (sandboxId sessionId commandId : String) (upstream : LogUpstream)
    (clock : Nat → Nat) : List Ev :=
  match upstream with
  | .establishFail msg => [Ev.errorEv "Failed to stream command logs" (some msg)]
  | .stream chunks ending =>
      chunks.enum.map (fun p => Ev.log sandboxId sessionId commandId p.2 (clock p.1))
        ++ (match ending with
            | .ended => [Ev.logComplete sandboxId sessionId commandId "Log stream ended"]
            | .failed msg => [Ev.logError sandboxId sessionId commandId msg]
            | .stillOpen => [])

/-- Events appended by the dispatched driver on an open channel, as a
pure list, mirroring the branch structure of `handleEventStream`. -/
def driverEvs (sandboxId : String) (sessionId commandId : Option String)
    (eventType : String) (env : Upstream) (ticks : Nat) : List Ev :=
  if eventType == "logs" then
    if truthy sessionId && truthy commandId then
      logDriverEvs sandboxId (sessionId.getD "") (commandId.getD "") env.logs env.clock
    else [Ev.errorEv "sessionId and commandId required for logs streaming" none]
  else if eventType == "sandbox-status" then
    (List.range ticks).map (fun k => statusTickEv sandboxId (env.statusFetches k) (env.clock k))
  else if eventType == "sessions" then
    (List.range ticks).map (fun k => sessionsTickEv sandboxId (env.sessionsFetches k) (env.clock k))
  else [Ev.errorEv ("Unknown event type: " ++ eventType) none]

/-- Full event list of one channel run: the connected handshake, the
driver events, and the disconnected event when the client disconnect is
observed. -/
def connectionTrace (sandboxId : String) (sessionId commandId : Option String)
    (eventType : String) (env : Upstream) (ticks : Nat) (disconnect : Bool) : List Ev :=
  Ev.connected "SSE connection established" sandboxId sessionId commandId eventType
    :: driverEvs sandboxId sessionId commandId eventType env ticks
    ++ (if disconnect then [Ev.disconnected "Client disconnected"] else [])

theorem sendEvent_open (q : List Ev) (e : Ev) :
    sendEvent ⟨q, false⟩ e = Except.ok ⟨q ++ [e], false⟩ := rfl

theorem sendEvent_closed (q : List Ev) (e : Ev) :
    sendEvent ⟨q, true⟩ e =
      Except.error (JsError.typeError "Controller is already closed") := rfl

theorem close_open (q : List Ev) :
    Controller.close ⟨q, false⟩ = Except.ok ⟨q, true⟩ := rfl

theorem pollStatusOnce_open (sandboxId : String) (fetch : Except String String)
    (ts : Nat) (q : List Ev) :
    pollStatusOnce sandboxId fetch ts ⟨q, false⟩ =
      Except.ok ⟨q ++ [statusTickEv sandboxId fetch ts], false⟩ := by
  cases fetch <;> rfl

theorem pollStatusOnce_closed (sandboxId : String) (fetch : Except String String)
    (ts : Nat) (q : List Ev) :
    pollStatusOnce sandboxId fetch ts ⟨q, true⟩ =
      Except.error (JsError.typeError "Controller is already closed") := by
  cases fetch <;> rfl

theorem pollSessionsOnce_open (sandboxId : String) (fetch : Except String String)
    (ts : Nat) (q : List Ev) :
    pollSessionsOnce sandboxId fetch ts ⟨q, false⟩ =
      Except.ok ⟨q ++ [sessionsTickEv sandboxId fetch ts], false⟩ := by
  cases fetch <;> rfl

theorem runStatusTicks_open (sandboxId : String) (fetches : Nat → Except String String)
    (clock : Nat → Nat) (ks : List Nat) : ∀ q : List Ev,
    runStatusTicks sandboxId fetches clock ks ⟨q, false⟩ =
      Except.ok ⟨q ++ ks.map (fun k => statusTickEv sandboxId (fetches k) (clock k)), false⟩ := by
  induction ks with
  | nil => intro q; simp [runStatusTicks]
  | cons k ks ih =>
      intro q
      rw [runStatusTicks, pollStatusOnce_open]
      simp [ih]

theorem runSessionsTicks_open (sandboxId : String) (fetches : Nat → Except String String)
    (clock : Nat → Nat) (ks : List Nat) : ∀ q : List Ev,
    runSessionsTicks sandboxId fetches clock ks ⟨q, false⟩ =
      Except.ok ⟨q ++ ks.map (fun k => sessionsTickEv sandboxId (fetches k) (clock k)), false⟩ := by
  induction ks with
  | nil => intro q; simp [runSessionsTicks]
  | cons k ks ih =>
      intro q
      rw [runSessionsTicks, pollSessionsOnce_open]
      simp [ih]

theorem emitLogChunks_open (sandboxId sessionId commandId : String) (clock : Nat → Nat)
    (ps : List (Nat × String)) : ∀ q : List Ev,
    emitLogChunks sandboxId sessionId commandId clock ps ⟨q, false⟩ =
      Except.ok ⟨q ++ ps.map (fun p => Ev.log sandboxId sessionId commandId p.2 (clock p.1)),
        false⟩ := by
  induction ps with
  | nil => intro q; simp [emitLogChunks]
  | cons p ps ih =>
      intro q
      rw [emitLogChunks, sendEvent_open]
      simp [ih]

theorem streamCommandLogs_open (sandboxId sessionId commandId : String)
    (upstream : LogUpstream) (clock : Nat → Nat) (q : List Ev) :
    streamCommandLogs sandboxId sessionId commandId upstream clock ⟨q, false⟩ =
      Except.ok ⟨q ++ logDriverEvs sandboxId sessionId commandId upstream clock, false⟩ := by
  cases upstream with
  | establishFail msg => rfl
  | stream chunks ending =>
      cases ending <;>
        simp [streamCommandLogs, logDriverEvs, emitLogChunks_open, sendEvent_open]

theorem handleEventStream_open (sandboxId : String) (sessionId commandId : Option String)
    (eventType : String) (env : Upstream) (ticks : Nat) (q : List Ev) :
    handleEventStream sandboxId sessionId commandId eventType env ticks ⟨q, false⟩ =
      Except.ok ⟨q ++ driverEvs sandboxId sessionId commandId eventType env ticks,
        false⟩ := by
  unfold handleEventStream driverEvs
  split_ifs with h1 h2 h3 h4 <;>
    simp [streamCommandLogs_open, sendEvent_open, runStatusTicks_open, runSessionsTicks_open]

theorem connectionRun_eq (sandboxId : String) (sessionId commandId : Option String)
    (eventType : String) (env : Upstream) (ticks : Nat) (disconnect : Bool) :
    connectionRun sandboxId sessionId commandId eventType env ticks disconnect =
      Except.ok ⟨connectionTrace sandboxId sessionId commandId eventType env ticks disconnect,
        disconnect⟩ := by
  cases disconnect <;>
    simp [connectionRun, connectionTrace, sendEvent_open, handleEventStream_open,
      Controller.close]

theorem statusTickEv_shape (sandboxId : String) (fetch : Except String String) (ts : Nat) :
    isConnectedEv (statusTickEv sandboxId fetch ts) = false ∧
    isDisconnectedEv (statusTickEv sandboxId fetch ts) = false := by
  cases fetch <;> exact ⟨rfl, rfl⟩

theorem sessionsTickEv_shape (sandboxId : String) (fetch : Except String String) (ts : Nat) :
    isConnectedEv (sessionsTickEv sandboxId fetch ts) = false ∧
    isDisconnectedEv (sessionsTickEv sandboxId fetch ts) = false := by
  cases fetch <;> exact ⟨rfl, rfl⟩

theorem logDriverEvs_shape (sandboxId sessionId commandId : String)
    (upstream : LogUpstream) (clock : Nat → Nat) :
    ∀ e ∈ logDriverEvs sandboxId sessionId commandId upstream clock,
      isConnectedEv e = false ∧ isDisconnectedEv e = false := by
  intro e he
  cases upstream with
  | establishFail msg =>
      simp only [logDriverEvs] at he
      rcases List.mem_singleton.1 he with rfl
      exact ⟨rfl, rfl⟩
  | stream chunks ending =>
      simp only [logDriverEvs] at he
      rcases List.mem_append.1 he with h1 | h2
      · rcases List.mem_map.1 h1 with ⟨p, hp, rfl⟩
        exact ⟨rfl, rfl⟩
      · cases ending with
        | ended =>
            rcases List.mem_singleton.1 h2 with rfl
            exact ⟨rfl, rfl⟩
        | failed msg2 =>
            rcases List.mem_singleton.1 h2 with rfl
            exact ⟨rfl, rfl⟩
        | stillOpen => exact absurd h2 (List.not_mem_nil e)

theorem driverEvs_shape (sandboxId : String) (sessionId commandId : Option String)
    (eventType : String) (env : Upstream) (ticks : Nat) :
    ∀ e ∈ driverEvs sandboxId sessionId commandId eventType env ticks,
      isConnectedEv e = false ∧ isDisconnectedEv e = false := by
  intro e he
  unfold driverEvs at he
  split_ifs at he with h1 h2 h3 h4
  · exact logDriverEvs_shape _ _ _ _ _ e he
  · simp at he; subst he; exact ⟨rfl, rfl⟩
  · rcases List.mem_map.1 he with ⟨k, hk, rfl⟩
    exact statusTickEv_shape _ _ _
  · rcases List.mem_map.1 he with ⟨k, hk, rfl⟩
    exact sessionsTickEv_shape _ _ _
  · simp at he; subst he; exact ⟨rfl, rfl⟩

theorem countP_eq_zero_of_shape {p : Ev → Bool} {l : List Ev}
    (h : ∀ e ∈ l, p e = false) : l.countP p = 0 :=
  List.countP_eq_zero.2 (by intro a ha; simp [h a ha])

theorem countP_map_const_true {α : Type} {p : Ev → Bool} {f : α → Ev} (l : List α)
    (h : ∀ x, p (f x) = true) : (l.map f).countP p = l.length := by
  induction l with
  | nil => rfl
  | cons x xs ih => simp [List.countP_cons, h, ih]

theorem countP_map_const_false {α : Type} {p : Ev → Bool} {f : α → Ev} (l : List α)
    (h : ∀ x, p (f x) = false) : (l.map f).countP p = 0 := by
  induction l with
  | nil => rfl
  | cons x xs ih => simp [List.countP_cons, h, ih]

theorem clearInterval_idem (t : Timers) (id : Nat) :
    clearInterval (clearInterval t id) id = clearInterval t id := by
  unfold clearInterval
  simp [List.filter_filter]

theorem mem_emissionTimestamps_lt (delay : Nat → Nat) (period n horizon : Nat) :
    ∀ a ∈ emissionTimestamps delay period n horizon, a < horizon := by
  intro a ha
  unfold emissionTimestamps at ha
  rcases List.mem_flatMap.1 ha with ⟨t, ht, hat⟩
  rcases List.mem_map.1 hat with ⟨k, hk, rfl⟩
  exact List.mem_range.1 ht

theorem pairwise_le_map_const {α : Type} (l : List α) (t : Nat) :
    (l.map (fun _ => t)).Pairwise (fun a b => a ≤ b) := by
  induction l with
  | nil => exact List.Pairwise.nil
  | cons x xs ih =>
      refine List.Pairwise.cons ?_ ih
      intro b hb
      rcases List.mem_map.1 hb with ⟨y, hy, rfl⟩
      exact Nat.le_refl t

/-- Concrete upstream oracles used to exercise the theorems on explicit
inputs. -/
def demoUpstream : Upstream :=
  { statusFetches := fun _ => Except.ok "running"
    sessionsFetches := fun _ => Except.ok "[]"
    logs := LogUpstream.stream ["chunk-a", "chunk-b", "chunk-c"] StreamEnding.ended
    clock := fun n => n }

/-- Concrete poll oracle whose first fetch fails and whose later fetches
succeed. -/
def flakyFetches : Nat → Except String String :=
  fun i => if i == 0 then Except.error "boom" else Except.ok "ok"

/-- C8: a subscription request whose required target identifier
(sandboxId) is falsy is rejected with HTTP status 400 before any stream
is constructed: the handler result is the bad-request response, not an
SSE channel, so no channel is opened and no events are emitted. -/
theorem missing_sandboxId_rejected (r : Request) (env : Upstream) (ticks : Nat)
    (disconnect : Bool) (h : truthy r.sandboxId = false) :
    GET r env ticks disconnect = GETResult.badRequest 400 "Missing sandboxId parameter" := by
  simp [GET, h]

theorem missing_sandboxId_rejected_witness :
    GET ⟨none, none, none, none⟩ demoUpstream 1 true =
      GETResult.badRequest 400 "Missing sandboxId parameter" :=
  missing_sandboxId_rejected ⟨none, none, none, none⟩ demoUpstream 1 true rfl

/-- Concrete already-closed channel holding a delivered handshake. -/
def closedDemoCtrl : Controller :=
  { queue := [Ev.connected "SSE connection established" "sbx-1" none none "sandbox-status"],
    closed := true }

/-- C2 counterexample: emitting the disconnected event on a channel that
is already closed is not a no-op — `sendEvent` calls
`controller.enqueue` unguarded, which throws a TypeError on a closed
stream. -/
theorem emit_on_closed_counterexample :
    sendEvent closedDemoCtrl (Ev.disconnected "Client disconnected") =
      Except.error (JsError.typeError "Controller is already closed") := rfl

/-- C2 amended: on client disconnect the abort listener emits the
disconnected event strictly before closing the channel (its step list
ends with emit-then-close for every cleanup state, and on an open
channel the emission is delivered and then the channel closes); however,
when the channel is already closed at emission time the emit raises a
TypeError rather than completing as a no-op. -/
theorem disconnect_emit_then_close (t : Timers) (q : List Ev) (cleanup : Option Nat) :
    (∃ pre, teardownSteps cleanup =
       pre ++ [TDStep.emitDisconnected, TDStep.closeChannel]) ∧
    (runTDSteps [TDStep.emitDisconnected, TDStep.closeChannel] ⟨t, ⟨q, false⟩⟩ =
       Except.ok ⟨t, ⟨q ++ [Ev.disconnected "Client disconnected"], true⟩⟩) ∧
    (sendEvent ⟨q, true⟩ (Ev.disconnected "Client disconnected") =
       Except.error (JsError.typeError "Controller is already closed")) := by
  refine ⟨?_, ?_, rfl⟩
  · cases cleanup with
    | some id => exact ⟨[TDStep.cancelDriver id], rfl⟩
    | none => exact ⟨[], rfl⟩
  · simp [runTDSteps, runTDStep, sendEvent, Controller.enqueue, Controller.close,
      Except.map]

/-- Concrete subscription state before teardown: one active interval and
an open channel holding the handshake. -/
def tdState0 : ConnState :=
  { timers := { active := [0] },
    ctrl := { queue := [Ev.connected "SSE connection established" "sbx-1" none none
                          "sandbox-status"],
              closed := false } }

/-- State produced by the first teardown of `tdState0`. -/
def tdState1 : ConnState :=
  { timers := { active := [] },
    ctrl := { queue := [Ev.connected "SSE connection established" "sbx-1" none none
                          "sandbox-status",
                        Ev.disconnected "Client disconnected"],
              closed := true } }

/-- C7 counterexample: running the teardown path a second time on the
same subscription handle raises a TypeError (the disconnected re-emit
hits the closed channel), contradicting the claim that repeated teardown
raises no error. -/
theorem double_teardown_counterexample :
    teardown (some 0) tdState0 = Except.ok tdState1 ∧
    teardown (some 0) tdState1 =
      Except.error (JsError.typeError "Controller is already closed") :=
  ⟨rfl, rfl⟩

/-- C7 amended: the teardown path with no recorded cancellation callback
skips the release step (timers untouched) and completes safely; the
driver-release step itself is idempotent (clearing a cleared interval is
a no-op, so the upstream resource is never double-released); and a
second invocation of teardown never delivers a duplicate disconnected
event — but it raises a TypeError on the closed channel instead of
raising no error. -/
theorem teardown_idempotent_release (cleanup : Option Nat) (t : Timers) (q : List Ev) :
    (teardown none ⟨t, ⟨q, false⟩⟩ =
       Except.ok ⟨t, ⟨q ++ [Ev.disconnected "Client disconnected"], true⟩⟩) ∧
    (∀ (t2 : Timers) (id : Nat),
       clearInterval (clearInterval t2 id) id = clearInterval t2 id) ∧
    (∃ s1 e, teardown cleanup ⟨t, ⟨q, false⟩⟩ = Except.ok s1 ∧
       s1.ctrl.queue.countP isDisconnectedEv = q.countP isDisconnectedEv + 1 ∧
       teardown cleanup s1 = Except.error e) := by
  refine ⟨?_, clearInterval_idem, ?_⟩
  · simp [teardown, teardownSteps, runTDSteps, runTDStep, sendEvent, Controller.enqueue,
      Controller.close, Except.map]
  · cases cleanup with
    | none =>
        refine ⟨⟨t, ⟨q ++ [Ev.disconnected "Client disconnected"], true⟩⟩,
          JsError.typeError "Controller is already closed", ?_, ?_, ?_⟩
        · simp [teardown, teardownSteps, runTDSteps, runTDStep, sendEvent,
            Controller.enqueue, Controller.close, Except.map]
        · simp [List.countP_append, List.countP_cons, isDisconnectedEv]
        · simp [teardown, teardownSteps, runTDSteps, runTDStep, sendEvent,
            Controller.enqueue, Except.map]
    | some id =>
        refine ⟨⟨clearInterval t id, ⟨q ++ [Ev.disconnected "Client disconnected"], true⟩⟩,
          JsError.typeError "Controller is already closed", ?_, ?_, ?_⟩
        · simp [teardown, teardownSteps, runTDSteps, runTDStep, sendEvent,
            Controller.enqueue, Controller.close, Except.map]
        · simp [List.countP_append, List.countP_cons, isDisconnectedEv]
        · simp [teardown, teardownSteps, runTDSteps, runTDStep, sendEvent,
            Controller.enqueue, Except.map]

/-- C3: the abort listener checks the nullable cleanup callback before
use (the none case runs no cancel step), cancellation reaches the
driver's stop mechanism strictly before the channel is closed (the step
list is cancel, emit, close), after teardown the driver's interval is
inactive so a later timer firing emits nothing, and a driver whose start
was still awaiting its initial fetch when the channel was torn down
aborts without installing its interval (it never keeps running). -/
theorem driver_lifetime_bounded (id : Nat) (t : Timers) (q : List Ev) :
    (teardownSteps (some id) =
       [TDStep.cancelDriver id, TDStep.emitDisconnected, TDStep.closeChannel]) ∧
    (teardownSteps none = [TDStep.emitDisconnected, TDStep.closeChannel]) ∧
    (teardown (some id) ⟨t, ⟨q, false⟩⟩ =
       Except.ok ⟨clearInterval t id,
         ⟨q ++ [Ev.disconnected "Client disconnected"], true⟩⟩) ∧
    (∀ (sandboxId : String) (fetch : Except String String) (ts : Nat),
       intervalTick sandboxId fetch ts id
           ⟨clearInterval t id, ⟨q ++ [Ev.disconnected "Client disconnected"], true⟩⟩ =
         Except.ok ⟨clearInterval t id,
           ⟨q ++ [Ev.disconnected "Client disconnected"], true⟩⟩) ∧
    (∀ (qc : List Ev) (tc : Timers) (sandboxId : String)
       (fetch0 : Except String String) (ts0 freshId : Nat),
       streamSandboxStatusStart sandboxId fetch0 ts0 freshId ⟨tc, ⟨qc, true⟩⟩ =
         Except.error (JsError.typeError "Controller is already closed")) := by
  refine ⟨rfl, rfl, ?_, ?_, ?_⟩
  · simp [teardown, teardownSteps, runTDSteps, runTDStep, sendEvent, Controller.enqueue,
      Controller.close, Except.map]
  · intro sandboxId fetch ts
    simp [intervalTick, clearInterval, List.mem_filter]
  · intro qc tc sandboxId fetch0 ts0 freshId
    simp [streamSandboxStatusStart, pollStatusOnce_closed]

/-- C1 counterexample: with the source's 5-second status period and a
fetch that hangs for 12 seconds at tick 1, the tick at index 2 fires
while the previous fetch is still in flight — `setInterval` does not
wait for the in-flight fetch to resolve, so the claim's no-concurrent-
fetches mechanism is false. -/
theorem poll_overlap_counterexample :
    fetchStart slowDelay 5000 2 < fetchEnd slowDelay 5000 1 ∧
    ¬ ticksWaitForPrevious slowDelay 5000 :=
  ⟨by decide, fun h => absurd (h 1) (by decide)⟩

/-- C1 amended: poll events are emitted in fetch-completion order with
non-decreasing timestamps (the timestamp is taken at emission, and the
single-threaded event loop emits completions in time order), and every
fetch completing within the horizon is emitted; however, ticks do not
wait for the previous fetch — a fetch slower than the period leaves two
fetches concurrently in flight. -/
theorem poll_emission_order (delay : Nat → Nat) (period n horizon : Nat) :
    (emissionTimestamps delay period n horizon).Pairwise (fun a b => a ≤ b) ∧
    (∀ k, k < n → fetchEnd delay period k < horizon →
       fetchEnd delay period k ∈ emissionTimestamps delay period n horizon) := by
  constructor
  · induction horizon with
    | zero => simp [emissionTimestamps]
    | succ h ih =>
        unfold emissionTimestamps at ih ⊢
        rw [List.range_succ, List.flatMap_append, List.pairwise_append]
        refine ⟨ih, ?_, ?_⟩
        · simp only [List.flatMap_cons, List.flatMap_nil, List.append_nil]
          exact pairwise_le_map_const _ h
        · intro a ha b hb
          have ha2 : a < h := mem_emissionTimestamps_lt delay period n h a ha
          simp only [List.flatMap_cons, List.flatMap_nil, List.append_nil] at hb
          rcases List.mem_map.1 hb with ⟨k, hk, rfl⟩
          exact Nat.le_of_lt ha2
  · intro k hk hlt
    refine List.mem_flatMap.2 ⟨fetchEnd delay period k, List.mem_range.2 hlt, ?_⟩
    refine List.mem_map.2 ⟨k, ?_, rfl⟩
    exact List.mem_filter.2 ⟨List.mem_range.2 hk, by simp⟩

theorem poll_emission_order_witness :
    fetchEnd slowDelay 5000 0 ∈ emissionTimestamps slowDelay 5000 2 20000 :=
  (poll_emission_order slowDelay 5000 2 20000).2 0 (by decide) (by decide)

/-- C4: when the upstream fetch of tick k fails, that tick contributes
exactly one event — the error event carrying the upstream failure
message — and the schedule is not stopped: tick k+1 still contributes
its own event (one event per tick over the whole run). -/
theorem poll_failure_not_fatal (sandboxId : String) (fetches : Nat → Except String String)
    (clock : Nat → Nat) (n k : Nat) (m : String)
    (hk : k + 1 < n) (hfail : fetches k = Except.error m) :
    ∃ c : Controller,
      runStatusTicks sandboxId fetches clock (List.range n) ⟨[], false⟩ = Except.ok c ∧
      c.queue.length = n ∧
      c.queue[k]? = some (Ev.errorEv "Failed to get sandbox status" (some m)) ∧
      c.queue[k + 1]? = some (statusTickEv sandboxId (fetches (k + 1)) (clock (k + 1))) := by
  refine ⟨_, runStatusTicks_open sandboxId fetches clock (List.range n) [], ?_, ?_, ?_⟩
  · simp
  · rw [show (Controller.mk
        ([] ++ (List.range n).map (fun j => statusTickEv sandboxId (fetches j) (clock j)))
        false).queue =
        (List.range n).map (fun j => statusTickEv sandboxId (fetches j) (clock j)) by simp]
    rw [List.getElem?_map, List.getElem?_range (Nat.lt_of_succ_lt hk)]
    simp [statusTickEv, hfail]
  · rw [show (Controller.mk
        ([] ++ (List.range n).map (fun j => statusTickEv sandboxId (fetches j) (clock j)))
        false).queue =
        (List.range n).map (fun j => statusTickEv sandboxId (fetches j) (clock j)) by simp]
    rw [List.getElem?_map, List.getElem?_range hk]
    simp

theorem poll_failure_not_fatal_witness :
    ∃ c : Controller,
      runStatusTicks "sbx-1" flakyFetches (fun i => i) (List.range 2) ⟨[], false⟩ =
        Except.ok c ∧
      c.queue.length = 2 ∧
      c.queue[0]? = some (Ev.errorEv "Failed to get sandbox status" (some "boom")) ∧
      c.queue[1]? = some (statusTickEv "sbx-1" (flakyFetches 1) 1) :=
  poll_failure_not_fatal "sbx-1" flakyFetches (fun i => i) 2 0 "boom" (by decide) rfl

/-- C5: a logs subscription missing a truthy sessionId or commandId
yields a channel whose full trace (before any disconnect) is the
handshake followed by exactly one error event naming the missing
precondition, with no log, log-complete or log-error events, and the
channel still open. -/
theorem logs_missing_ids_single_error (sandboxId : String)
    (sessionId commandId : Option String) (env : Upstream) (ticks : Nat)
    (hmiss : (truthy sessionId && truthy commandId) = false) :
    ∃ c : Controller,
      connectionRun sandboxId sessionId commandId "logs" env ticks false = Except.ok c ∧
      c.queue = [Ev.connected "SSE connection established" sandboxId sessionId commandId
          "logs",
        Ev.errorEv "sessionId and commandId required for logs streaming" none] ∧
      c.queue.countP isErrorEv = 1 ∧
      c.queue.countP isLogEv = 0 ∧
      c.queue.countP isLogCompleteEv = 0 ∧
      c.queue.countP isLogErrorEv = 0 ∧
      c.closed = false := by
  refine ⟨_, connectionRun_eq sandboxId sessionId commandId "logs" env ticks false,
    ?_, ?_, ?_, ?_, ?_, rfl⟩ <;>
  simp [connectionTrace, driverEvs, hmiss, List.countP_cons, isErrorEv, isLogEv,
    isLogCompleteEv, isLogErrorEv]

theorem logs_missing_ids_single_error_witness :
    ∃ c : Controller,
      connectionRun "sbx-1" none (some "cmd-1") "logs" demoUpstream 0 false =
        Except.ok c ∧
      c.queue = [Ev.connected "SSE connection established" "sbx-1" none (some "cmd-1")
          "logs",
        Ev.errorEv "sessionId and commandId required for logs streaming" none] ∧
      c.queue.countP isErrorEv = 1 ∧
      c.queue.countP isLogEv = 0 ∧
      c.queue.countP isLogCompleteEv = 0 ∧
      c.queue.countP isLogErrorEv = 0 ∧
      c.closed = false :=
  logs_missing_ids_single_error "sbx-1" none (some "cmd-1") demoUpstream 0 rfl

/-- C6: every accepted subscription's channel run succeeds and its event
queue starts with the single connected event (which therefore precedes
every other event), contains at most one disconnected event, and no
disconnected event occurs anywhere but the last position. -/
theorem sse_lifecycle_bracket (sandboxId : String) (sessionId commandId : Option String)
    (eventType : String) (env : Upstream) (ticks : Nat) (disconnect : Bool) :
    ∃ c : Controller,
      connectionRun sandboxId sessionId commandId eventType env ticks disconnect =
        Except.ok c ∧
      c.queue.head? = some (Ev.connected "SSE connection established" sandboxId sessionId
        commandId eventType) ∧
      c.queue.countP isConnectedEv = 1 ∧
      c.queue.countP isDisconnectedEv ≤ 1 ∧
      (∀ e ∈ c.queue.dropLast, isDisconnectedEv e = false) := by
  have hD := driverEvs_shape sandboxId sessionId commandId eventType env ticks
  have hDc : (driverEvs sandboxId sessionId commandId eventType env ticks).countP
      isConnectedEv = 0 := countP_eq_zero_of_shape (fun e he => (hD e he).1)
  have hDd : (driverEvs sandboxId sessionId commandId eventType env ticks).countP
      isDisconnectedEv = 0 := countP_eq_zero_of_shape (fun e he => (hD e he).2)
  cases disconnect with
  | false =>
      refine ⟨_, connectionRun_eq sandboxId sessionId commandId eventType env ticks false,
        rfl, ?_, ?_, ?_⟩
      · simp [connectionTrace, List.countP_cons, List.countP_append, hDc, isConnectedEv]
      · simp [connectionTrace, List.countP_cons, List.countP_append, hDd,
          isDisconnectedEv]
      · intro e he
        simp only [connectionTrace, Bool.false_eq_true, if_false, List.append_nil] at he
        have he2 := List.dropLast_subset _ he
        rcases List.mem_cons.1 he2 with rfl | h
        · rfl
        · exact (hD e h).2
  | true =>
      refine ⟨_, connectionRun_eq sandboxId sessionId commandId eventType env ticks true,
        rfl, ?_, ?_, ?_⟩
      · simp [connectionTrace, List.countP_cons, List.countP_append, hDc, isConnectedEv,
          isDisconnectedEv]
      · simp [connectionTrace, List.countP_cons, List.countP_append, hDd,
          isDisconnectedEv]
      · intro e he
        simp only [connectionTrace, if_true] at he
        rw [List.dropLast_concat] at he
        rcases List.mem_cons.1 he with rfl | h
        · rfl
        · exact (hD e h).2

theorem sse_lifecycle_bracket_witness :
    ∃ c : Controller,
      connectionRun "sbx-1" none none "sandbox-status" demoUpstream 2 true =
        Except.ok c ∧
      c.queue.head? = some (Ev.connected "SSE connection established" "sbx-1" none none
        "sandbox-status") ∧
      c.queue.countP isConnectedEv = 1 ∧
      c.queue.countP isDisconnectedEv ≤ 1 ∧
      (∀ e ∈ c.queue.dropLast, isDisconnectedEv e = false) :=
  sse_lifecycle_bracket "sbx-1" none none "sandbox-status" demoUpstream 2 true

/-- C9: a logs subscription with both identifiers truthy, against an
upstream stream delivering the given chunks and then completing, emits
the handshake, one log event per chunk in arrival order (with the
decoded text, the identifiers and a timestamp), then exactly one
log-complete event as the final event, and no log-error event. -/
theorem logs_stream_end_to_end (sandboxId s k : String)
    (hs : (s == "") = false) (hk : (k == "") = false)
    (chunks : List String) (env : Upstream)
    (hlog : env.logs = LogUpstream.stream chunks StreamEnding.ended) (ticks : Nat) :
    ∃ c : Controller,
      connectionRun sandboxId (some s) (some k) "logs" env ticks false = Except.ok c ∧
      c.queue = Ev.connected "SSE connection established" sandboxId (some s) (some k)
          "logs"
        :: chunks.enum.map (fun p => Ev.log sandboxId s k p.2 (env.clock p.1))
        ++ [Ev.logComplete sandboxId s k "Log stream ended"] ∧
      c.queue.countP isLogEv = chunks.length ∧
      c.queue.countP isLogCompleteEv = 1 ∧
      c.queue.getLast? = some (Ev.logComplete sandboxId s k "Log stream ended") ∧
      c.queue.countP isLogErrorEv = 0 := by
  have hq : connectionTrace sandboxId (some s) (some k) "logs" env ticks false =
      Ev.connected "SSE connection established" sandboxId (some s) (some k) "logs"
        :: chunks.enum.map (fun p => Ev.log sandboxId s k p.2 (env.clock p.1))
        ++ [Ev.logComplete sandboxId s k "Log stream ended"] := by
    simp [connectionTrace, driverEvs, truthy, hs, hk, logDriverEvs, hlog]
  have hrun : connectionRun sandboxId (some s) (some k) "logs" env ticks false =
      Except.ok ⟨Ev.connected "SSE connection established" sandboxId (some s) (some k)
          "logs"
        :: chunks.enum.map (fun p => Ev.log sandboxId s k p.2 (env.clock p.1))
        ++ [Ev.logComplete sandboxId s k "Log stream ended"], false⟩ := by
    rw [connectionRun_eq, hq]
  refine ⟨_, hrun, rfl, ?_, ?_, ?_, ?_⟩
  · have h1 : (chunks.enum.map
        (fun p => Ev.log sandboxId s k p.2 (env.clock p.1))).countP isLogEv =
        chunks.enum.length := countP_map_const_true _ (fun x => rfl)
    simp [List.countP_cons, List.countP_append, isLogEv, h1, List.enum_length]
  · have h1 : (chunks.enum.map
        (fun p => Ev.log sandboxId s k p.2 (env.clock p.1))).countP isLogCompleteEv = 0 :=
      countP_map_const_false _ (fun x => rfl)
    simp [List.countP_cons, List.countP_append, isLogCompleteEv, h1]
  · rw [show (Controller.mk (Ev.connected "SSE connection established" sandboxId (some s)
        (some k) "logs"
        :: chunks.enum.map (fun p => Ev.log sandboxId s k p.2 (env.clock p.1))
        ++ [Ev.logComplete sandboxId s k "Log stream ended"]) false).queue =
        (Ev.connected "SSE connection established" sandboxId (some s) (some k) "logs"
          :: chunks.enum.map (fun p => Ev.log sandboxId s k p.2 (env.clock p.1)))
        ++ [Ev.logComplete sandboxId s k "Log stream ended"] by simp]
    exact List.getLast?_concat _
  · have h1 : (chunks.enum.map
        (fun p => Ev.log sandboxId s k p.2 (env.clock p.1))).countP isLogErrorEv = 0 :=
      countP_map_const_false _ (fun x => rfl)
    simp [List.countP_cons, List.countP_append, isLogErrorEv, h1]

theorem logs_stream_end_to_end_witness :
    ∃ c : Controller,
      connectionRun "sbx-1" (some "sess-1") (some "cmd-1") "logs" demoUpstream 0 false =
        Except.ok c ∧
      c.queue = Ev.connected "SSE connection established" "sbx-1" (some "sess-1")
          (some "cmd-1") "logs"
        :: (["chunk-a", "chunk-b", "chunk-c"] : List String).enum.map
            (fun p => Ev.log "sbx-1" "sess-1" "cmd-1" p.2 (demoUpstream.clock p.1))
        ++ [Ev.logComplete "sbx-1" "sess-1" "cmd-1" "Log stream ended"] ∧
      c.queue.countP isLogEv = (["chunk-a", "chunk-b", "chunk-c"] : List String).length ∧
      c.queue.countP isLogCompleteEv = 1 ∧
      c.queue.getLast? = some (Ev.logComplete "sbx-1" "sess-1" "cmd-1"
        "Log stream ended") ∧
      c.queue.countP isLogErrorEv = 0 :=
  logs_stream_end_to_end "sbx-1" "sess-1" "cmd-1" rfl rfl
    ["chunk-a", "chunk-b", "chunk-c"] demoUpstream rfl 0

theorem not_mem_sessionId_params (sandboxId : String) (commandId : Option String)
    (eventType v : String) :
    ("sessionId", v) ∉ sseQueryParams sandboxId none commandId eventType := by
  cases commandId with
  | none => simp [sseQueryParams, Prod.mk.injEq]
  | some s2 =>
      by_cases h : (s2 == "") = true
      · simp [sseQueryParams, h, Prod.mk.injEq]
      · simp [sseQueryParams, h, Prod.mk.injEq]

theorem not_mem_commandId_params (sandboxId : String) (sessionId : Option String)
    (eventType v : String) :
    ("commandId", v) ∉ sseQueryParams sandboxId sessionId none eventType := by
  cases sessionId with
  | none => simp [sseQueryParams, Prod.mk.injEq]
  | some s2 =>
      by_cases h : (s2 == "") = true
      · simp [sseQueryParams, h, Prod.mk.injEq]
      · simp [sseQueryParams, h, Prod.mk.injEq]

/-- C10: the getSSEConnectionUrl tool performs no validation of the logs
precondition — every call succeeds and returns a URL built from the
assembled parameters; the parameters always contain sandboxId and
eventType, eventType defaults to sandbox-status when not supplied and is
echoed as logs when supplied as logs, and an absent sessionId or
commandId is simply omitted from the parameters (so a logs URL missing
them is produced without complaint). -/
theorem sse_url_tool_no_validation (baseUrl sandboxId : String)
    (sessionId commandId : Option String) (eventType : Option String) :
    (("sandboxId", sandboxId) ∈
       (getSSEConnectionUrl baseUrl sandboxId sessionId commandId eventType).params) ∧
    (("eventType", eventType.getD "sandbox-status") ∈
       (getSSEConnectionUrl baseUrl sandboxId sessionId commandId eventType).params) ∧
    ((getSSEConnectionUrl baseUrl sandboxId sessionId commandId none).echoedEventType =
       "sandbox-status") ∧
    ((getSSEConnectionUrl baseUrl sandboxId sessionId commandId
        (some "logs")).echoedEventType = "logs") ∧
    (sessionId = none → ∀ v, ("sessionId", v) ∉
       (getSSEConnectionUrl baseUrl sandboxId sessionId commandId eventType).params) ∧
    (commandId = none → ∀ v, ("commandId", v) ∉
       (getSSEConnectionUrl baseUrl sandboxId sessionId commandId eventType).params) ∧
    ((getSSEConnectionUrl baseUrl sandboxId sessionId commandId eventType).url =
       baseUrl ++ "/sse?" ++
         renderQuery (getSSEConnectionUrl baseUrl sandboxId sessionId commandId
           eventType).params) := by
  refine ⟨?_, ?_, rfl, rfl, ?_, ?_, rfl⟩
  · simp [getSSEConnectionUrl, sseQueryParams]
  · simp [getSSEConnectionUrl, sseQueryParams]
  · rintro rfl v
    exact not_mem_sessionId_params sandboxId commandId (eventType.getD "sandbox-status") v
  · rintro rfl v
    exact not_mem_commandId_params sandboxId sessionId (eventType.getD "sandbox-status") v

theorem sse_url_tool_no_validation_witness :
    ("eventType", "logs") ∈
      (getSSEConnectionUrl "http://localhost:3000" "sbx-1" none (some "cmd-1")
        (some "logs")).params ∧
    ("sessionId", "sess-1") ∉
      (getSSEConnectionUrl "http://localhost:3000" "sbx-1" none (some "cmd-1")
        (some "logs")).params :=
  ⟨(sse_url_tool_no_validation "http://localhost:3000" "sbx-1" none (some "cmd-1")
      (some "logs")).2.1,
   (sse_url_tool_no_validation "http://localhost:3000" "sbx-1" none (some "cmd-1")
      (some "logs")).2.2.2.2.1 rfl "sess-1"⟩

end DaytonaSSE
